import Mathlib

/-
Shallow embedding of the OpenTelemetry setup helpers of this repository:
  src/python/flask/otel.py  (gRPC / binary-protocol variant, Flask hosting)
  src/python/http/otel.py   (HTTP / text-protocol variant, requests+urllib3)

The Python modules are straight-line bootstrap code acting on process-wide
global registrations (tracer/meter/logger providers, the root logger of the
`logging` facility).  We model that global state explicitly and translate each
function into a state-passing Lean function.  Python object identity, where a
claim observes it (provider replacement across runs), is modelled by a fresh
numeric `oid` drawn from a counter in the state.  Globally observable actions
are also appended to an event list, in program order, so that ordering claims
can be stated.
-/

namespace Otel

/-- Python logging level NOTSET (0). -/
def NOTSET : Nat := 0

/-- Python logging level INFO (20), the "informational" floor. -/
def INFO : Nat := 20

/-- Python logging level WARNING (30), the default level of the root logger. -/
def WARNING : Nat := 30

/-- The resource attribute key imported as
opentelemetry.sdk.resources.SERVICE_NAME. -/
def SERVICE_NAME : String := "service.name"

/-- An OpenTelemetry Resource: the attribute mapping passed as
Resource(attributes=...), modelled as an ordered association list. -/
structure Resource where
  attributes : List (String × String)
deriving DecidableEq, Repr

/-- A process environment, the part of os.environ the modules read. -/
abbrev Env := List (String × String)

/-- os.environ.get(key): the first binding of key, if any. -/
def envGet (env : Env) (key : String) : Option String :=
  (List.find? (fun p => p.1 == key) env).map Prod.snd

/-- os.environ.get(key, dflt): the binding of key, or dflt when absent. -/
def envGetD (env : Env) (key dflt : String) : String :=
  (envGet env key).getD dflt

/-- A Python logging.Logger handle: the root logger (logging.getLogger()) or a
named logger (logging.getLogger(name)); in CPython a named logger is never the
root logger object. -/
inductive Logger where
  | root : Logger
  | named : String → Logger
deriving DecidableEq, Repr

/-- Globally observable actions performed by the setup code, recorded in
program order. -/
inductive Event where
  | instrument_flask_app
  | instrument_requests
  | instrument_urllib3
  | set_tracer_provider
  | set_meter_provider
  | set_logger_provider
  | add_root_handler
  | set_root_level
  | logging_instrument
deriving DecidableEq, Repr

namespace flaskOtel

/-- Value of __name__ in src/python/flask/otel.py when imported as a module. -/
def module_name : String := "otel"

/-- A Flask application instance, opaque to this module. -/
structure Flask where
  name : String
deriving DecidableEq, Repr

/-- Handle returned by trace.get_tracer(name). -/
structure Tracer where
  name : String
deriving DecidableEq, Repr

/-- Handle returned by metrics.get_meter(name). -/
structure Meter where
  name : String
deriving DecidableEq, Repr

/-- The gRPC OTLPSpanExporter as constructed here: only an endpoint. -/
structure OTLPSpanExporter where
  endpoint : String
deriving DecidableEq, Repr

/-- BatchSpanProcessor wrapping one exporter. -/
structure BatchSpanProcessor where
  exporter : OTLPSpanExporter
deriving DecidableEq, Repr

/-- TracerProvider: object identity, resource, attached span processors. -/
structure TracerProvider where
  oid : Nat
  resource : Resource
  span_processors : List BatchSpanProcessor
deriving DecidableEq, Repr

/-- The gRPC OTLPMetricExporter as constructed here: only an endpoint. -/
structure OTLPMetricExporter where
  endpoint : String
deriving DecidableEq, Repr

/-- PeriodicExportingMetricReader wrapping one metric exporter. -/
structure PeriodicExportingMetricReader where
  exporter : OTLPMetricExporter
deriving DecidableEq, Repr

/-- MeterProvider: object identity, resource, metric readers. -/
structure MeterProvider where
  oid : Nat
  resource : Resource
  metric_readers : List PeriodicExportingMetricReader
deriving DecidableEq, Repr

/-- The gRPC OTLPLogExporter as constructed here: only an endpoint. -/
structure OTLPLogExporter where
  endpoint : String
deriving DecidableEq, Repr

/-- BatchLogRecordProcessor wrapping one log exporter. -/
structure BatchLogRecordProcessor where
  exporter : OTLPLogExporter
deriving DecidableEq, Repr

/-- LoggerProvider: object identity, resource, log record processors. -/
structure LoggerProvider where
  oid : Nat
  resource : Resource
  processors : List BatchLogRecordProcessor
deriving DecidableEq, Repr

/-- LoggingHandler(level, logger_provider): the bridge from the ambient
logging facility into a telemetry LoggerProvider. -/
structure LoggingHandler where
  level : Nat
  logger_provider : LoggerProvider
deriving DecidableEq, Repr

/-- The process-wide state the flask variant reads and writes: the three
global provider registrations, the root logger configuration, the handlers of
named loggers (never touched by this code), the instrumentor activations, a
fresh-object counter, and the event trace. -/
structure GlobalState where
  next_id : Nat
  tracer_provider : Option TracerProvider
  meter_provider : Option MeterProvider
  logger_provider : Option LoggerProvider
  root_level : Nat
  root_handlers : List LoggingHandler
  named_handlers : List (String × LoggingHandler)
  instrumented_apps : List Flask
  logging_instrumented : Bool
  events : List Event
deriving DecidableEq, Repr

/-- The state of a fresh Python process before setup runs. -/
def initialState : GlobalState :=
  { next_id := 0
    tracer_provider := none
    meter_provider := none
    logger_provider := none
    root_level := WARNING
    root_handlers := []
    named_handlers := []
    instrumented_apps := []
    logging_instrumented := false
    events := [] }

/-- setup_tracing of src/python/flask/otel.py: build a TracerProvider over the
resource, wrap a gRPC span exporter at the endpoint in a batch processor,
attach it, install the provider as the global default, and return a tracer
named after the module. -/
def setup_tracing (resource : Resource) (otlp_endpoint : String)
    (st : GlobalState) : Tracer × GlobalState :=
  let trace_provider : TracerProvider :=
    { oid := st.next_id, resource := resource, span_processors := [] }
  let otlp_exporter : OTLPSpanExporter := { endpoint := otlp_endpoint }
  let otlp_processor : BatchSpanProcessor := { exporter := otlp_exporter }
  let trace_provider :=
    { trace_provider with
        span_processors := trace_provider.span_processors ++ [otlp_processor] }
  let st1 :=
    { st with
        next_id := st.next_id + 1
        tracer_provider := some trace_provider
        events := st.events ++ [Event.set_tracer_provider] }
  ({ name := module_name }, st1)

/-- setup_metrics of src/python/flask/otel.py: wrap a gRPC metric exporter in
a periodic reader, install a MeterProvider over the resource as the global
default, and return a meter named after the module. -/
def setup_metrics (resource : Resource) (otlp_endpoint : String)
    (st : GlobalState) : Meter × GlobalState :=
  let metric_reader : PeriodicExportingMetricReader :=
    { exporter := { endpoint := otlp_endpoint } }
  let meter_provider : MeterProvider :=
    { oid := st.next_id, resource := resource, metric_readers := [metric_reader] }
  let st1 :=
    { st with
        next_id := st.next_id + 1
        meter_provider := some meter_provider
        events := st.events ++ [Event.set_meter_provider] }
  ({ name := module_name }, st1)

/-- setup_logging of src/python/flask/otel.py: create a LoggerProvider over
the resource, install it globally, add a batch log processor (the global
registration aliases the same Python object, so the processor is visible
through it), attach a LoggingHandler bridging to the provider onto the root
logger, set the root level to INFO, activate the logging instrumentor, and
return the module logger. -/
def setup_logging (resource : Resource) (otlp_endpoint : String)
    (st : GlobalState) : Logger × GlobalState :=
  let logger_provider : LoggerProvider :=
    { oid := st.next_id
      resource := resource
      processors := [{ exporter := { endpoint := otlp_endpoint } }] }
  let handler : LoggingHandler :=
    { level := NOTSET, logger_provider := logger_provider }
  let st1 :=
    { st with
        next_id := st.next_id + 1
        logger_provider := some logger_provider
        root_handlers := st.root_handlers ++ [handler]
        root_level := INFO
        logging_instrumented := true
        events := st.events ++
          [Event.set_logger_provider, Event.add_root_handler,
           Event.set_root_level, Event.logging_instrument] }
  (Logger.named module_name, st1)

/-- setup_instrumentation of src/python/flask/otel.py: instrument the Flask
app, build the resource from the service name, resolve the endpoint from the
environment with the gRPC default, run tracing, metrics, logging, and return
(logger, tracer, meter). -/
def setup_instrumentation (app : Flask) (service_name : String) (env : Env)
    (st : GlobalState) : (Logger × Tracer × Meter) × GlobalState :=
  let st1 :=
    { st with
        instrumented_apps := st.instrumented_apps ++ [app]
        events := st.events ++ [Event.instrument_flask_app] }
  let resource : Resource := { attributes := [(SERVICE_NAME, service_name)] }
  let otlp_endpoint :=
    envGetD env "OTEL_EXPORTER_OTLP_ENDPOINT" "http://localhost:4317"
  let p1 := setup_tracing resource otlp_endpoint st1
  let p2 := setup_metrics resource otlp_endpoint p1.2
  let p3 := setup_logging resource otlp_endpoint p2.2
  ((p3.1, p1.1, p2.1), p3.2)

end flaskOtel

namespace httpOtel

/-- Value of __name__ in src/python/http/otel.py when imported as a module. -/
def module_name : String := "otel"

/-- Handle returned by trace.get_tracer(name). -/
structure Tracer where
  name : String
deriving DecidableEq, Repr

/-- Handle returned by metrics.get_meter(name). -/
structure Meter where
  name : String
deriving DecidableEq, Repr

/-- _create_otlp_headers of src/python/http/otel.py: always the
target-routing header; Python tests the optional bearer token for truthiness
(if bearer_token:), so None and the empty string add no Authorization entry. -/
def _create_otlp_headers (target_package : String)
    (bearer_token : Option String) : List (String × String) :=
  let headers := [("x-observe-target-package", target_package)]
  match bearer_token with
  | some t =>
      if t != "" then headers ++ [("Authorization", "Bearer " ++ t)]
      else headers
  | none => headers

/-- The HTTP OTLPSpanExporter as constructed here: endpoint and headers. -/
structure OTLPSpanExporter where
  endpoint : String
  headers : List (String × String)
deriving DecidableEq, Repr

/-- BatchSpanProcessor wrapping one exporter. -/
structure BatchSpanProcessor where
  exporter : OTLPSpanExporter
deriving DecidableEq, Repr

/-- TracerProvider: object identity, resource, attached span processors. -/
structure TracerProvider where
  oid : Nat
  resource : Resource
  span_processors : List BatchSpanProcessor
deriving DecidableEq, Repr

/-- The HTTP OTLPMetricExporter as constructed here: endpoint and headers. -/
structure OTLPMetricExporter where
  endpoint : String
  headers : List (String × String)
deriving DecidableEq, Repr

/-- PeriodicExportingMetricReader wrapping one metric exporter. -/
structure PeriodicExportingMetricReader where
  exporter : OTLPMetricExporter
deriving DecidableEq, Repr

/-- MeterProvider: object identity, resource, metric readers. -/
structure MeterProvider where
  oid : Nat
  resource : Resource
  metric_readers : List PeriodicExportingMetricReader
deriving DecidableEq, Repr

/-- The HTTP OTLPLogExporter as constructed here: endpoint and headers. -/
structure OTLPLogExporter where
  endpoint : String
  headers : List (String × String)
deriving DecidableEq, Repr

/-- BatchLogRecordProcessor wrapping one log exporter. -/
structure BatchLogRecordProcessor where
  exporter : OTLPLogExporter
deriving DecidableEq, Repr

/-- LoggerProvider: object identity, resource, log record processors. -/
structure LoggerProvider where
  oid : Nat
  resource : Resource
  processors : List BatchLogRecordProcessor
deriving DecidableEq, Repr

/-- LoggingHandler(level, logger_provider): the bridge from the ambient
logging facility into a telemetry LoggerProvider. -/
structure LoggingHandler where
  level : Nat
  logger_provider : LoggerProvider
deriving DecidableEq, Repr

/-- The process-wide state the http variant reads and writes. -/
structure GlobalState where
  next_id : Nat
  tracer_provider : Option TracerProvider
  meter_provider : Option MeterProvider
  logger_provider : Option LoggerProvider
  root_level : Nat
  root_handlers : List LoggingHandler
  named_handlers : List (String × LoggingHandler)
  requests_instrumented : Bool
  urllib3_instrumented : Bool
  logging_instrumented : Bool
  events : List Event
deriving DecidableEq, Repr

/-- The state of a fresh Python process before setup runs. -/
def initialState : GlobalState :=
  { next_id := 0
    tracer_provider := none
    meter_provider := none
    logger_provider := none
    root_level := WARNING
    root_handlers := []
    named_handlers := []
    requests_instrumented := false
    urllib3_instrumented := false
    logging_instrumented := false
    events := [] }

/-- setup_tracing of src/python/http/otel.py: headers for the "Tracing"
target, a TracerProvider over the resource, a batch processor around an HTTP
span exporter at endpoint/v1/traces with those headers, global installation,
and a tracer named after the module. -/
def setup_tracing (resource : Resource) (otlp_endpoint : String)
    (bearer_token : Option String) (st : GlobalState) : Tracer × GlobalState :=
  let headers := _create_otlp_headers "Tracing" bearer_token
  let trace_provider : TracerProvider :=
    { oid := st.next_id, resource := resource, span_processors := [] }
  let otlp_exporter : OTLPSpanExporter :=
    { endpoint := otlp_endpoint ++ "/v1/traces", headers := headers }
  let otlp_processor : BatchSpanProcessor := { exporter := otlp_exporter }
  let trace_provider :=
    { trace_provider with
        span_processors := trace_provider.span_processors ++ [otlp_processor] }
  let st1 :=
    { st with
        next_id := st.next_id + 1
        tracer_provider := some trace_provider
        events := st.events ++ [Event.set_tracer_provider] }
  ({ name := module_name }, st1)

/-- setup_metrics of src/python/http/otel.py: headers for the "Metrics"
target, a periodic reader around an HTTP metric exporter at
endpoint/v1/metrics, a MeterProvider over the resource installed globally,
and a meter named after the module. -/
def setup_metrics (resource : Resource) (otlp_endpoint : String)
    (bearer_token : Option String) (st : GlobalState) : Meter × GlobalState :=
  let headers := _create_otlp_headers "Metrics" bearer_token
  let metric_reader : PeriodicExportingMetricReader :=
    { exporter :=
        { endpoint := otlp_endpoint ++ "/v1/metrics", headers := headers } }
  let meter_provider : MeterProvider :=
    { oid := st.next_id, resource := resource, metric_readers := [metric_reader] }
  let st1 :=
    { st with
        next_id := st.next_id + 1
        meter_provider := some meter_provider
        events := st.events ++ [Event.set_meter_provider] }
  ({ name := module_name }, st1)

/-- setup_logging of src/python/http/otel.py: headers for the "Logs" target,
a LoggerProvider over the resource installed globally, a batch processor
around an HTTP log exporter at endpoint/v1/logs (the global registration
aliases the same Python object, so the processor is visible through it), a
LoggingHandler bridging to the provider attached to the root logger, root
level INFO, logging instrumentor activation, and the module logger. -/
def setup_logging (resource : Resource) (otlp_endpoint : String)
    (bearer_token : Option String) (st : GlobalState) : Logger × GlobalState :=
  let headers := _create_otlp_headers "Logs" bearer_token
  let logger_provider : LoggerProvider :=
    { oid := st.next_id
      resource := resource
      processors :=
        [{ exporter :=
            { endpoint := otlp_endpoint ++ "/v1/logs", headers := headers } }] }
  let handler : LoggingHandler :=
    { level := NOTSET, logger_provider := logger_provider }
  let st1 :=
    { st with
        next_id := st.next_id + 1
        logger_provider := some logger_provider
        root_handlers := st.root_handlers ++ [handler]
        root_level := INFO
        logging_instrumented := true
        events := st.events ++
          [Event.set_logger_provider, Event.add_root_handler,
           Event.set_root_level, Event.logging_instrument] }
  (Logger.named module_name, st1)

/-- setup_instrumentation of src/python/http/otel.py: instrument the requests
and urllib3 client libraries, build the resource from the service name,
resolve the endpoint (HTTP default) and the optional bearer token from the
environment, run tracing, metrics, logging, and return
(logger, tracer, meter). -/
def setup_instrumentation (service_name : String) (env : Env)
    (st : GlobalState) : (Logger × Tracer × Meter) × GlobalState :=
  let st1 :=
    { st with
        requests_instrumented := true
        urllib3_instrumented := true
        events := st.events ++
          [Event.instrument_requests, Event.instrument_urllib3] }
  let resource : Resource := { attributes := [(SERVICE_NAME, service_name)] }
  let otlp_endpoint :=
    envGetD env "OTEL_EXPORTER_OTLP_ENDPOINT" "http://localhost:4318"
  let bearer_token := envGet env "OTEL_EXPORTER_OTLP_BEARER_TOKEN"
  let p1 := setup_tracing resource otlp_endpoint bearer_token st1
  let p2 := setup_metrics resource otlp_endpoint bearer_token p1.2
  let p3 := setup_logging resource otlp_endpoint bearer_token p2.2
  ((p3.1, p1.1, p2.1), p3.2)

end httpOtel

/-- C1: for every service name S, including the empty string, the resource
built by each orchestrator from S carries exactly one service-name entry and
its value is S; no validation rejects an empty S (the functions are total).
Stated through the globally installed tracer providers, whose resource is the
one the orchestrator built. -/
theorem c1_resource_exactly_one_service_name (app : flaskOtel.Flask)
    (S : String) (env : Env) (stF : flaskOtel.GlobalState)
    (stH : httpOtel.GlobalState) :
    (((flaskOtel.setup_instrumentation app S env stF).2.tracer_provider).map
      (fun p => (p.resource.attributes.filter
        (fun kv => kv.1 == SERVICE_NAME)).map Prod.snd)) = some [S] ∧
    (((httpOtel.setup_instrumentation S env stH).2.tracer_provider).map
      (fun p => (p.resource.attributes.filter
        (fun kv => kv.1 == SERVICE_NAME)).map Prod.snd)) = some [S] := by
  constructor <;> rfl

/-- C2 counterexample: called with the target label "Tracing" and the bearer
token "" (a token), the header builder returns only the routing entry; the
Authorization entry the claim requires is absent. -/
theorem c2_counterexample_empty_token :
    httpOtel._create_otlp_headers "Tracing" (some "") =
      [("x-observe-target-package", "Tracing")] ∧
    ¬ ("Authorization", "Bearer ") ∈
        httpOtel._create_otlp_headers "Tracing" (some "") := by
  constructor <;> decide

/-- C2 (amended): with no bearer token the header builder returns exactly the
routing entry mapping x-observe-target-package to L; with a nonempty token T
it returns exactly that entry followed by Authorization mapped to
"Bearer " ++ T, and nothing else. -/
theorem c2_headers_routing_and_auth (L T : String) (hT : T ≠ "") :
    httpOtel._create_otlp_headers L none =
      [("x-observe-target-package", L)] ∧
    httpOtel._create_otlp_headers L (some T) =
      [("x-observe-target-package", L),
       ("Authorization", "Bearer " ++ T)] := by
  refine ⟨rfl, ?_⟩
  simp [httpOtel._create_otlp_headers, hT]

/-- C2 witness: the amended statement at L = "Tracing", T = "secret". -/
theorem c2_headers_routing_and_auth_witness :
    httpOtel._create_otlp_headers "Tracing" none =
      [("x-observe-target-package", "Tracing")] ∧
    httpOtel._create_otlp_headers "Tracing" (some "secret") =
      [("x-observe-target-package", "Tracing"),
       ("Authorization", "Bearer " ++ "secret")] :=
  c2_headers_routing_and_auth "Tracing" "secret" (by decide)

/-- C9: a bearer token set to the empty string behaves exactly like an absent
token: the header builder result is identical and carries no Authorization
entry, because Python tests the token for truthiness, not presence. -/
theorem c9_empty_token_like_none (L : String) :
    httpOtel._create_otlp_headers L (some "") =
      httpOtel._create_otlp_headers L none ∧
    List.find? (fun kv => kv.1 == "Authorization")
      (httpOtel._create_otlp_headers L (some "")) = none := by
  constructor <;> rfl

/-- C3: the orchestrators resolve the collector endpoint from
OTEL_EXPORTER_OTLP_ENDPOINT with default http://localhost:4317 (flask/gRPC)
respectively http://localhost:4318 (http), and use a present value unchanged;
observed through the span exporter endpoint installed in the global tracer
provider (the http variant appends its per-signal path to the resolved
base). -/
theorem c3_endpoint_default_or_env (app : flaskOtel.Flask) (S : String)
    (env : Env) (stF : flaskOtel.GlobalState) (stH : httpOtel.GlobalState)
    (v : Option String) (h : envGet env "OTEL_EXPORTER_OTLP_ENDPOINT" = v) :
    (((flaskOtel.setup_instrumentation app S env stF).2.tracer_provider).map
      (fun p => p.span_processors.map (fun pr => pr.exporter.endpoint))) =
      some [v.getD "http://localhost:4317"] ∧
    (((httpOtel.setup_instrumentation S env stH).2.tracer_provider).map
      (fun p => p.span_processors.map (fun pr => pr.exporter.endpoint))) =
      some [(v.getD "http://localhost:4318") ++ "/v1/traces"] := by
  constructor <;>
    simp [flaskOtel.setup_instrumentation, flaskOtel.setup_tracing,
      flaskOtel.setup_metrics, flaskOtel.setup_logging,
      httpOtel.setup_instrumentation, httpOtel.setup_tracing,
      httpOtel.setup_metrics, httpOtel.setup_logging, envGetD, h]

/-- C3 witness: with an empty environment the defaults appear in the
installed exporters. -/
theorem c3_endpoint_default_or_env_witness :
    (((flaskOtel.setup_instrumentation { name := "app" } "svc" []
        flaskOtel.initialState).2.tracer_provider).map
      (fun p => p.span_processors.map (fun pr => pr.exporter.endpoint))) =
      some ["http://localhost:4317"] ∧
    (((httpOtel.setup_instrumentation "svc" []
        httpOtel.initialState).2.tracer_provider).map
      (fun p => p.span_processors.map (fun pr => pr.exporter.endpoint))) =
      some ["http://localhost:4318" ++ "/v1/traces"] :=
  c3_endpoint_default_or_env { name := "app" } "svc" [] flaskOtel.initialState
    httpOtel.initialState none rfl

/-- C4: each orchestrator first activates the automatic instrumentation of
its hosting context (the Flask app; respectively requests then urllib3), then
performs the per-signal global installations in the order tracing, metrics,
logging — read off the event trace — and returns exactly the three handles as
the tuple (logger, tracer, meter). -/
theorem c4_order_and_return_tuple (app : flaskOtel.Flask) (S : String)
    (env : Env) (stF : flaskOtel.GlobalState) (stH : httpOtel.GlobalState) :
    (flaskOtel.setup_instrumentation app S env stF).2.events =
      stF.events ++
        [Event.instrument_flask_app, Event.set_tracer_provider,
         Event.set_meter_provider, Event.set_logger_provider,
         Event.add_root_handler, Event.set_root_level,
         Event.logging_instrument] ∧
    (flaskOtel.setup_instrumentation app S env stF).1 =
      (Logger.named flaskOtel.module_name,
        { name := flaskOtel.module_name }, { name := flaskOtel.module_name }) ∧
    (httpOtel.setup_instrumentation S env stH).2.events =
      stH.events ++
        [Event.instrument_requests, Event.instrument_urllib3,
         Event.set_tracer_provider, Event.set_meter_provider,
         Event.set_logger_provider, Event.add_root_handler,
         Event.set_root_level, Event.logging_instrument] ∧
    (httpOtel.setup_instrumentation S env stH).1 =
      (Logger.named httpOtel.module_name,
        { name := httpOtel.module_name }, { name := httpOtel.module_name }) := by
  refine ⟨?_, rfl, ?_, rfl⟩ <;>
    simp [flaskOtel.setup_instrumentation, flaskOtel.setup_tracing,
      flaskOtel.setup_metrics, flaskOtel.setup_logging,
      httpOtel.setup_instrumentation, httpOtel.setup_tracing,
      httpOtel.setup_metrics, httpOtel.setup_logging]

/-- C5: after the framework orchestrator runs with service name S, the three
global provider slots are all filled and every provider holds the same
resource, the one built from S. -/
theorem c5_providers_nonnull_share_resource (app : flaskOtel.Flask)
    (S : String) (env : Env) (st : flaskOtel.GlobalState) :
    ((flaskOtel.setup_instrumentation app S env st).2.tracer_provider).map
      (fun p => p.resource) = some { attributes := [(SERVICE_NAME, S)] } ∧
    ((flaskOtel.setup_instrumentation app S env st).2.meter_provider).map
      (fun p => p.resource) = some { attributes := [(SERVICE_NAME, S)] } ∧
    ((flaskOtel.setup_instrumentation app S env st).2.logger_provider).map
      (fun p => p.resource) = some { attributes := [(SERVICE_NAME, S)] } := by
  exact ⟨rfl, rfl, rfl⟩

/-- C6: after the logging setup of either variant runs, the root logger's
minimum severity threshold is exactly the informational level, and at least
one handler attached to the root logger bridges into the newly installed
telemetry log provider. -/
theorem c6_root_level_and_bridge (resource : Resource) (endpoint : String)
    (tok : Option String) (stF : flaskOtel.GlobalState)
    (stH : httpOtel.GlobalState) :
    ((flaskOtel.setup_logging resource endpoint stF).2.root_level = INFO ∧
      ∃ h, h ∈ (flaskOtel.setup_logging resource endpoint stF).2.root_handlers ∧
        some h.logger_provider =
          (flaskOtel.setup_logging resource endpoint stF).2.logger_provider) ∧
    ((httpOtel.setup_logging resource endpoint tok stH).2.root_level = INFO ∧
      ∃ h, h ∈ (httpOtel.setup_logging resource endpoint tok stH).2.root_handlers ∧
        some h.logger_provider =
          (httpOtel.setup_logging resource endpoint tok stH).2.logger_provider) := by
  refine ⟨⟨rfl, ?_⟩, ⟨rfl, ?_⟩⟩ <;>
    exact ⟨_, List.mem_append_right _ (List.mem_singleton.mpr rfl), rfl⟩

/-- C7: running an orchestrator twice is not idempotent: after the second run
every global provider slot holds a provider distinct from the first run's
(fresh objects, last-write-wins replacement), and the surviving resource
attributes are exactly those built from the second service name, with no
merge of the two runs' attribute sets. -/
theorem c7_rerun_replaces_providers (app1 app2 : flaskOtel.Flask)
    (S1 S2 : String) (env : Env) (st : flaskOtel.GlobalState)
    (stH : httpOtel.GlobalState)
    (fl1 fl2 : flaskOtel.GlobalState) (ht1 ht2 : httpOtel.GlobalState)
    (h1 : fl1 = (flaskOtel.setup_instrumentation app1 S1 env st).2)
    (h2 : fl2 = (flaskOtel.setup_instrumentation app2 S2 env fl1).2)
    (h3 : ht1 = (httpOtel.setup_instrumentation S1 env stH).2)
    (h4 : ht2 = (httpOtel.setup_instrumentation S2 env ht1).2) :
    (fl2.tracer_provider ≠ fl1.tracer_provider ∧
     fl2.meter_provider ≠ fl1.meter_provider ∧
     fl2.logger_provider ≠ fl1.logger_provider ∧
     ht2.tracer_provider ≠ ht1.tracer_provider ∧
     ht2.meter_provider ≠ ht1.meter_provider ∧
     ht2.logger_provider ≠ ht1.logger_provider) ∧
    (fl2.tracer_provider.map (fun p => p.resource) =
        some { attributes := [(SERVICE_NAME, S2)] } ∧
     fl2.meter_provider.map (fun p => p.resource) =
        some { attributes := [(SERVICE_NAME, S2)] } ∧
     fl2.logger_provider.map (fun p => p.resource) =
        some { attributes := [(SERVICE_NAME, S2)] } ∧
     ht2.tracer_provider.map (fun p => p.resource) =
        some { attributes := [(SERVICE_NAME, S2)] } ∧
     ht2.meter_provider.map (fun p => p.resource) =
        some { attributes := [(SERVICE_NAME, S2)] } ∧
     ht2.logger_provider.map (fun p => p.resource) =
        some { attributes := [(SERVICE_NAME, S2)] }) := by
  subst h1 h2 h3 h4
  refine ⟨⟨?_, ?_, ?_, ?_, ?_, ?_⟩, rfl, rfl, rfl, rfl, rfl, rfl⟩ <;>
    · intro hc
      have hoid :=
        congrArg (fun o => (Option.map (fun p => p.oid) o).getD 0) hc
      simp [flaskOtel.setup_instrumentation, flaskOtel.setup_tracing,
        flaskOtel.setup_metrics, flaskOtel.setup_logging,
        httpOtel.setup_instrumentation, httpOtel.setup_tracing,
        httpOtel.setup_metrics, httpOtel.setup_logging] at hoid
      omega

/-- C7 witness: applied at concrete inputs from a fresh process state, the
state equations discharged by rfl; the second run's tracer provider differs
from the first run's. -/
theorem c7_rerun_replaces_providers_witness :
    (flaskOtel.setup_instrumentation { name := "a" } "s2" []
        (flaskOtel.setup_instrumentation { name := "a" } "s1" []
          flaskOtel.initialState).2).2.tracer_provider ≠
      (flaskOtel.setup_instrumentation { name := "a" } "s1" []
        flaskOtel.initialState).2.tracer_provider :=
  (c7_rerun_replaces_providers { name := "a" } { name := "a" } "s1" "s2" []
    flaskOtel.initialState httpOtel.initialState
    (flaskOtel.setup_instrumentation { name := "a" } "s1" []
      flaskOtel.initialState).2
    (flaskOtel.setup_instrumentation { name := "a" } "s2" []
      (flaskOtel.setup_instrumentation { name := "a" } "s1" []
        flaskOtel.initialState).2).2
    (httpOtel.setup_instrumentation "s1" [] httpOtel.initialState).2
    (httpOtel.setup_instrumentation "s2" []
      (httpOtel.setup_instrumentation "s1" [] httpOtel.initialState).2).2
    rfl rfl rfl rfl).1.1

/-- C8: in the HTTP variant each signal setup builds its exporter with the
signal-specific URL suffix on the base endpoint and exactly its own routing
label in the x-observe-target-package header, for any bearer token; labels
are never mixed across signals. -/
theorem c8_http_signal_urls_and_labels (resource : Resource) (E : String)
    (tok : Option String) (st1 st2 st3 : httpOtel.GlobalState) :
    ((httpOtel.setup_tracing resource E tok st1).2.tracer_provider).map
      (fun p => p.span_processors.map
        (fun pr => (pr.exporter.endpoint,
          (pr.exporter.headers.filter
            (fun kv => kv.1 == "x-observe-target-package")).map Prod.snd))) =
      some [(E ++ "/v1/traces", ["Tracing"])] ∧
    ((httpOtel.setup_metrics resource E tok st2).2.meter_provider).map
      (fun p => p.metric_readers.map
        (fun r => (r.exporter.endpoint,
          (r.exporter.headers.filter
            (fun kv => kv.1 == "x-observe-target-package")).map Prod.snd))) =
      some [(E ++ "/v1/metrics", ["Metrics"])] ∧
    ((httpOtel.setup_logging resource E tok st3).2.logger_provider).map
      (fun p => p.processors.map
        (fun pr => (pr.exporter.endpoint,
          (pr.exporter.headers.filter
            (fun kv => kv.1 == "x-observe-target-package")).map Prod.snd))) =
      some [(E ++ "/v1/logs", ["Logs"])] := by
  refine ⟨?_, ?_, ?_⟩ <;>
    · cases tok with
      | none => rfl
      | some t =>
          simp only [httpOtel.setup_tracing, httpOtel.setup_metrics,
            httpOtel.setup_logging, httpOtel._create_otlp_headers]
          cases ht : (t != "") <;> simp [ht]

/-- C10: the logger handle returned by the logging setup is the module-named
logger, which is not the root logger; the setup attaches no handler to any
named logger, while the root logger gains exactly the one bridging handler
and the informational level floor — so records emitted through the returned
logger meet the bridge only at the root. -/
theorem c10_returned_logger_is_named_child (resource : Resource)
    (endpoint : String) (tok : Option String) (stF : flaskOtel.GlobalState)
    (stH : httpOtel.GlobalState) :
    ((flaskOtel.setup_logging resource endpoint stF).1 =
        Logger.named flaskOtel.module_name ∧
      Logger.named flaskOtel.module_name ≠ Logger.root ∧
      (flaskOtel.setup_logging resource endpoint stF).2.named_handlers =
        stF.named_handlers ∧
      (∃ h, (flaskOtel.setup_logging resource endpoint stF).2.root_handlers =
          stF.root_handlers ++ [h] ∧
        some h.logger_provider =
          (flaskOtel.setup_logging resource endpoint stF).2.logger_provider) ∧
      (flaskOtel.setup_logging resource endpoint stF).2.root_level = INFO) ∧
    ((httpOtel.setup_logging resource endpoint tok stH).1 =
        Logger.named httpOtel.module_name ∧
      Logger.named httpOtel.module_name ≠ Logger.root ∧
      (httpOtel.setup_logging resource endpoint tok stH).2.named_handlers =
        stH.named_handlers ∧
      (∃ h, (httpOtel.setup_logging resource endpoint tok stH).2.root_handlers =
          stH.root_handlers ++ [h] ∧
        some h.logger_provider =
          (httpOtel.setup_logging resource endpoint tok stH).2.logger_provider) ∧
      (httpOtel.setup_logging resource endpoint tok stH).2.root_level = INFO) := by
  exact ⟨⟨rfl, by decide, rfl, ⟨_, rfl, rfl⟩, rfl⟩,
    ⟨rfl, by decide, rfl, ⟨_, rfl, rfl⟩, rfl⟩⟩

end Otel
